import Mathlib

/-!
Shallow embedding of `.github/workflows/scripts/azure_openai_hello.go`
(repository davidgamero/tomcat-hello-world).

Strings are modelled as `List Char`.  External effects (the chat-completion
network call, the `docker build` subprocess, file reads and writes) are
modelled as oracles supplied through environment structures; the pure
control flow and text processing are translated directly from the source.
-/

abbrev Str := List Char

/-- `strStarts m s` decides whether `m` is an initial segment of `s`
(character-by-character comparison). -/
def strStarts : Str → Str → Bool
  | [], _ => true
  | _ :: _, [] => false
  | a :: m, b :: s => a == b && strStarts m s

/-- `occursAt m s p`: the pattern `m` occurs in `s` starting at position `p`. -/
def occursAt (m s : Str) (p : Nat) : Bool :=
  strStarts m (s.drop p)

/-- Number of positions of `s` at which `m` occurs (used to state
"the sentinel marker appears exactly twice"). -/
def countOccur (m s : Str) : Nat :=
  ((List.range s.length).filter (fun p => occursAt m s p)).length

/-- Split `s` at the first occurrence of `m`: returns `(before, after)` with
`s = before ++ m ++ after`, or `none` when `m` does not occur in `s`. -/
def splitFirst : Str → Str → Option (Str × Str)
  | m, [] => if m = [] then some ([], []) else none
  | m, c :: rest =>
    if strStarts m (c :: rest) then some ([], (c :: rest).drop m.length)
    else
      match splitFirst m rest with
      | some (b, a) => some (c :: b, a)
      | none => none

/-- Substring strictly between the first pair of occurrences of `m` in `s`.
The source uses the Go regular expression
`<<<DOCKERFILE>>>([\s\S]*?)<<<DOCKERFILE>>>` with `FindStringSubmatch`:
leftmost match, lazy capture.  Because the sentinel marker cannot overlap
itself (no proper border), that is exactly "text between the first
occurrence and the next occurrence after it". -/
def extractBetween (m s : Str) : Option Str :=
  match splitFirst m s with
  | none => none
  | some (_, rest) =>
    match splitFirst m rest with
    | none => none
    | some (mid, _) => some mid

/-- Split a text into its lines at `'\n'`; the starting positions of the
returned segments are exactly the positions matched by `^` under the Go
regular-expression flag `(?m)`. -/
def splitLines : Str → List Str
  | [] => [[]]
  | c :: rest =>
    if c == '\n' then [] :: splitLines rest
    else
      match splitLines rest with
      | [] => [[c]]
      | l :: ls => (c :: l) :: ls

/-- The source's fallback search `regexp.MustCompile((?m)^FROM[\s\S]*?$)`
with `FindString`.  Go regexp semantics: leftmost match, and the lazy
`[\s\S]*?` stops at the first position where `$` matches, which under
`(?m)` is the end of the current line.  The match is therefore exactly the
first line of the text that starts with `FROM` (and nothing beyond that
line), contrary to the comment in the source ("Consider everything from
the first FROM as the dockerfile"). -/
def firstFromLine (s : Str) : Option Str :=
  (splitLines s).find? (fun l => strStarts (("FROM").data) l)

/-- Characters trimmed by Go's `strings.TrimSpace` (Unicode White_Space). -/
def isGoSpace (c : Char) : Bool :=
  let n := c.toNat
  (0x9 ≤ n && n ≤ 0xD) || n == 0x20 || n == 0x85 || n == 0xA0 || n == 0x1680 ||
  (0x2000 ≤ n && n ≤ 0x200A) || n == 0x2028 || n == 0x2029 || n == 0x202F ||
  n == 0x205F || n == 0x3000

/-- Go's `strings.TrimSpace`. -/
def trimSpace (s : Str) : Str :=
  ((s.dropWhile isGoSpace).reverse.dropWhile isGoSpace).reverse

/-- The sentinel marker used by `analyzeDockerfile` (source line 87). -/
def marker : Str := ("<<<DOCKERFILE>>>").data

/-- The input record for Dockerfile analysis (source lines 18-23). -/
structure DockerfileInput where
  DockerfileContent : Str
  ErrorMessages : Str
  repoFileTree : Str
  DockerfilePath : Str
deriving DecidableEq

/-- The analysis result (source lines 26-29). -/
structure DockerfileResult where
  FixedDockerfile : Str
  Analysis : Str
deriving DecidableEq

/-- The prompt text built by `analyzeDockerfile` (source lines 33-64). -/
def promptForInput (input : DockerfileInput) : Str :=
  (("Analyze the following Dockerfile for errors and suggest fixes:\nDockerfile:\n").data
      ++ input.DockerfileContent ++ ("\n").data)
  ++ (if input.ErrorMessages ≠ [] then
        ("\nErrors encountered when running this Dockerfile:\n").data
          ++ input.ErrorMessages ++ ("\n").data
      else
        ("\nNo error messages were provided. Please check for potential issues in the Dockerfile.\n").data)
  ++ (if input.repoFileTree ≠ [] then
        ("\nRepository files structure:\n").data ++ input.repoFileTree ++ ("\n").data
      else [])
  ++ ("\nPlease:\n1. Identify any issues in the Dockerfile\n2. Provide a fixed version of the Dockerfile\n3. Explain what changes were made and why\n\nOutput the fixed Dockerfile between <<<DOCKERFILE>>> tags.").data

/-- Outcome of the chat-completion call made by `analyzeDockerfile`
(source lines 66-83): a transport error, a response without usable
content, or the first choice's text content. -/
inductive ChatOutcome where
  | err (msg : Str)
  | noContent
  | content (text : Str)
deriving DecidableEq

/-- `chatOk o` holds when the chat call returned usable text content. -/
def chatOk : ChatOutcome → Bool
  | .content _ => true
  | _ => false

/-- The extraction step of `analyzeDockerfile` (source lines 85-105):
sentinel pair first, then the `FROM`-line fallback, then the whole text. -/
def extractFixedDockerfile (content : Str) : Str :=
  match extractBetween marker content with
  | some inner => trimSpace inner
  | none =>
    let fromMatches := (firstFromLine content).getD []
    if fromMatches = [] then content else fromMatches

/-- `analyzeDockerfile` (source lines 31-114), with the network
abstracted as an oracle `chat` mapping the prompt text sent to the model
to the outcome of the chat-completion call. -/
def analyzeDockerfile (chat : Str → ChatOutcome) (input : DockerfileInput) :
    Except Str DockerfileResult :=
  match chat (promptForInput input) with
  | .err e => .error e
  | .noContent => .error (("no response from AI model").data)
  | .content c => .ok ⟨extractFixedDockerfile c, c⟩

/-- Environment of one `buildDockerfile` call (source lines 117-135):
whether `docker` resolves on the search path, whether the subprocess
reported an error, and its combined output. -/
structure BuildEnv where
  dockerOnPath : Bool
  cmdErr : Bool
  cmdOutput : Str
deriving DecidableEq

/-- The message printed and returned when `docker` is absent (source line 120). -/
def dockerNotFoundMsg : Str :=
  ("Docker executable not found in PATH. Please install Docker or ensure it's available in your PATH.").data

/-- `buildDockerfile` (source lines 117-135).  Note that the
tool-not-found case is returned through the same `(success, output)`
pair as an ordinary failing build. -/
def buildDockerfile (env : BuildEnv) : Bool × Str :=
  if env.dockerOnPath = false then (false, dockerNotFoundMsg)
  else if env.cmdErr then (false, env.cmdOutput)
  else (true, env.cmdOutput)

/-- `containsSub needle hay`: `needle` occurs somewhere in `hay`. -/
def containsSub (needle hay : Str) : Bool :=
  match hay with
  | [] => strStarts needle []
  | _ :: t => strStarts needle hay || containsSub needle t

/-- Oracles for one run of `iterateDockerfileBuild`: the two file reads at
startup, and per-iteration outcomes of the build subprocess, the chat
call, and the `os.WriteFile` call. -/
structure IterEnv where
  readDockerfile : Except Str Str
  readStructure : Except Str Str
  build : Nat → BuildEnv
  chat : Nat → Str → ChatOutcome
  write : Nat → Except Str Unit

/-- Counts of the observable calls made by `iterateDockerfileBuild`:
`buildDockerfile` invocations, `analyzeDockerfile` invocations, and
`os.WriteFile` invocations on the Dockerfile path. -/
structure Trace where
  builds : Nat
  analyzeCalls : Nat
  writeCalls : Nat
deriving DecidableEq

/-- The error returned after the iteration budget is exhausted
(source line 195): `failed to fix Dockerfile after %d iterations`. -/
def exhaustedMsg (n : Int) : Str :=
  (("failed to fix Dockerfile after ") ++ toString n ++ (" iterations")).data

/-- The loop body of `iterateDockerfileBuild` (source lines 155-193),
starting at iteration index `i` with `rem` iterations of budget left and
`cur` the in-memory current Dockerfile text.  The Go loop
`for i := 0; i < maxIterations; i++` executes its body exactly
`maxIterations.toNat` times (when not exited early), so the caller passes
`rem = maxIterations.toNat`.  Returns the call trace and `none` on
success or `some errorMessage` on failure. -/
def iterFrom (env : IterEnv) (dockerfilePath : Str) (maxIterations : Int)
    (repoStructure : Str) : Nat → Nat → Str → Trace × Option Str
  | _, 0, _ => (⟨0, 0, 0⟩, some (exhaustedMsg maxIterations))
  | i, rem + 1, cur =>
    let b := buildDockerfile (env.build i)
    if b.1 then
      (⟨1, 0, 0⟩, none)
    else
      match analyzeDockerfile (env.chat i) ⟨cur, b.2, repoStructure, dockerfilePath⟩ with
      | .error e => (⟨1, 1, 0⟩, some ((("error in AI analysis: ").data) ++ e))
      | .ok result =>
        match env.write i with
        | .error e => (⟨1, 1, 1⟩, some ((("error writing fixed Dockerfile: ").data) ++ e))
        | .ok _ =>
          let next := iterFrom env dockerfilePath maxIterations repoStructure
            (i + 1) rem result.FixedDockerfile
          (⟨next.1.builds + 1, next.1.analyzeCalls + 1, next.1.writeCalls + 1⟩, next.2)

set_option linter.unusedVariables false in
/-- `iterateDockerfileBuild` (source lines 138-196).  The structure file
named by `fileStructurePath` is read through the `readStructure` oracle. -/
def iterateDockerfileBuild (env : IterEnv) (dockerfilePath fileStructurePath : Str)
    (maxIterations : Int) : Trace × Option Str :=
  match env.readDockerfile with
  | .error e => (⟨0, 0, 0⟩, some ((("error reading Dockerfile: ").data) ++ e))
  | .ok dockerfileContent =>
    match env.readStructure with
    | .error e => (⟨0, 0, 0⟩, some ((("error reading repository structure: ").data) ++ e))
    | .ok repoStructure =>
      iterFrom env dockerfilePath maxIterations repoStructure 0
        maxIterations.toNat dockerfileContent

/-- The mode selected by `main` (source lines 198-276) after the
environment-variable check, client construction, and the argument switch. -/
inductive MainAction where
  | configError
  | clientInitError
  | usage
  | helloTest
  | iterate (dockerfilePath fileStructurePath : Str) (maxIterations : Int)
deriving DecidableEq

/-- The recognized subcommand (source line 220). -/
def subcommandName : Str := ("iterate-dockerfile-build").data

/-- Decimal value of a digit string. -/
def digitsVal (s : Str) : Nat :=
  s.foldl (fun acc c => acc * 10 + (c.toNat - 48)) 0

/-- `fmt.Sscanf(s, "%d", &n)` (source line 237): skip leading white space,
an optional sign, then at least one decimal digit; trailing text is
ignored; on no digits the scan fails and the destination keeps its value. -/
def scanInt (s : Str) : Option Int :=
  match s.dropWhile isGoSpace with
  | '-' :: u =>
    let ds := u.takeWhile Char.isDigit
    if ds = [] then none else some (-(digitsVal ds : Int))
  | '+' :: u =>
    let ds := u.takeWhile Char.isDigit
    if ds = [] then none else some ((digitsVal ds : Int))
  | u =>
    let ds := u.takeWhile Char.isDigit
    if ds = [] then none else some ((digitsVal ds : Int))

/-- The dispatch performed by `main` (source lines 198-276): the
environment-variable check (lines 200-207), client construction
(lines 210-215, abstracted by `clientOk`), then the argument switch
(lines 218-275).  `args` is `os.Args[1:]`. -/
def mainDispatch (apiKey endpoint : Str) (clientOk : Bool) (args : List Str) :
    MainAction :=
  if apiKey = [] ∨ endpoint = [] then .configError
  else if clientOk = false then .clientInitError
  else
    match args with
    | [] => .usage
    | arg1 :: rest =>
      if arg1 = subcommandName then
        let dockerfilePath := (rest[0]?).getD (("../../../Dockerfile").data)
        let fileStructurePath := (rest[1]?).getD (("repo_structure.txt").data)
        let maxIterations : Int :=
          match rest[2]? with
          | some a => (scanInt a).getD 5
          | none => 5
        .iterate dockerfilePath fileStructurePath maxIterations
      else .helloTest

/-- The message printed on missing configuration (source line 205). -/
def configErrorMessage : Str :=
  ("Error: AZURE_OPENAI_KEY and AZURE_OPENAI_ENDPOINT environment variables must be set").data

/-- The usage text (source lines 273-275). -/
def usageLines : List Str :=
  [("Usage:").data,
   ("  go run azure_openai_hello.go                          - Test Azure OpenAI connection").data,
   ("  go run azure_openai_hello.go iterate-dockerfile-build [dockerfile-path] [file-structure-path] [max-iterations] - Iteratively build and fix a Dockerfile").data]

/-- What `main` prints for the modes whose output does not depend on
later oracle outcomes. -/
def actionPrints : MainAction → List Str
  | .configError => [configErrorMessage]
  | .usage => usageLines
  | _ => []

/-- Process exit code of each mode, when it is determined by the mode
alone (`none` when it depends on later effects). -/
def actionExitCode : MainAction → Option Nat
  | .configError => some 1
  | .clientInitError => some 1
  | .usage => some 0
  | _ => none

/-- Whether the selected mode reaches the network: the hello test always
performs a chat call; the iterate mode performs one on every failing
build.  Usage and the two early-exit error modes never do. -/
def performsNetworkCall : MainAction → Bool
  | .helloTest => true
  | .iterate _ _ _ => true
  | _ => false

/-- Whether the Azure client is constructed before the mode's behavior
runs: `main` builds the client right after the environment check, so
every mode except the configuration error constructs it. -/
def constructsClient : MainAction → Bool
  | .configError => false
  | _ => true

/-- Whether the selected mode can invoke the build subprocess. -/
def performsBuildCall : MainAction → Bool
  | .iterate _ _ _ => true
  | _ => false

/-- Concrete environment in which the first build succeeds. -/
def envC1 : IterEnv :=
  ⟨Except.ok (("FROM x").data), Except.ok (("tree").data),
    fun _ => ⟨true, false, []⟩,
    fun _ _ => ChatOutcome.noContent,
    fun _ => Except.ok ()⟩

/-- Concrete environment in which iteration 0 fails and iteration 1 succeeds. -/
def envC2 : IterEnv :=
  ⟨Except.ok (("FROM bad").data), Except.ok (("tree").data),
    fun i => ⟨true, i == 0, ("boom").data⟩,
    fun _ _ => ChatOutcome.content (("FROM fixed").data),
    fun _ => Except.ok ()⟩

/-- Concrete environment in which every build fails while analysis and
writes succeed. -/
def envC5 : IterEnv :=
  ⟨Except.ok (("FROM bad").data), Except.ok (("tree").data),
    fun _ => ⟨true, true, ("boom").data⟩,
    fun _ _ => ChatOutcome.content (("FROM fixed").data),
    fun _ => Except.ok ()⟩

/-- Concrete environment with successful reads, for the nonpositive
iteration-count run. -/
def envC10 : IterEnv :=
  ⟨Except.ok (("FROM x").data), Except.ok (("tree").data),
    fun _ => ⟨true, false, []⟩,
    fun _ _ => ChatOutcome.content (("y").data),
    fun _ => Except.ok ()⟩

/-! ### Properties of the string-search primitives -/

theorem strStarts_self_append : ∀ (m t : Str), strStarts m (m ++ t) = true
  | [], _ => rfl
  | a :: m, t => by simp [strStarts, strStarts_self_append m t]

theorem strStarts_exists_append : ∀ (m s : Str), strStarts m s = true ↔ ∃ t, s = m ++ t := by
  intro m
  induction m with
  | nil => intro s; simp [strStarts]
  | cons a m ih =>
    intro s
    cases s with
    | nil => simp [strStarts]
    | cons b s =>
      simp only [strStarts, Bool.and_eq_true, beq_iff_eq, ih, List.cons_append]
      constructor
      · rintro ⟨rfl, t, rfl⟩
        exact ⟨t, rfl⟩
      · rintro ⟨t, ht⟩
        injection ht with h1 h2
        exact ⟨h1.symm, t, h2⟩

theorem occursAt_cat (m pre tail : Str) :
    occursAt m (pre ++ (m ++ tail)) pre.length = true := by
  unfold occursAt
  rw [List.drop_left]
  exact strStarts_self_append m tail

theorem occursAt_oob {m : Str} (hm : m ≠ []) {s : Str} {p : Nat}
    (h : s.length ≤ p) : occursAt m s p = false := by
  unfold occursAt
  rw [List.drop_eq_nil_of_le h]
  cases m with
  | nil => exact absurd rfl hm
  | cons a m => rfl

theorem occursAt_drop_shift (m s : Str) (k p : Nat) :
    occursAt m (s.drop k) p = occursAt m s (k + p) := by
  unfold occursAt
  rw [List.drop_drop]

theorem mem_occ_filter {m s : Str} {p : Nat} (hm : m ≠ [])
    (h : occursAt m s p = true) :
    p ∈ (List.range s.length).filter (fun q => occursAt m s q) := by
  rw [List.mem_filter, List.mem_range]
  refine ⟨?_, h⟩
  by_contra hlt
  push_neg at hlt
  rw [occursAt_oob hm hlt] at h
  exact Bool.false_ne_true h

theorem two_mem_le_length {l : List Nat} {a b : Nat}
    (ha : a ∈ l) (hb : b ∈ l) (hab : a ≠ b) : 2 ≤ l.length := by
  cases l with
  | nil => simp at ha
  | cons x t =>
    cases t with
    | nil =>
      simp only [List.mem_singleton] at ha hb
      exact absurd (ha.trans hb.symm) hab
    | cons y u => simp only [List.length_cons]; omega

theorem mem_pair_of_len2 {l : List Nat} {a b x : Nat} (hl : l.length = 2)
    (ha : a ∈ l) (hb : b ∈ l) (hab : a ≠ b) (hx : x ∈ l) : x = a ∨ x = b := by
  cases l with
  | nil => simp at hl
  | cons u t =>
    cases t with
    | nil => simp at hl
    | cons v w =>
      cases w with
      | cons z r => simp only [List.length_cons] at hl; omega
      | nil =>
        simp only [List.mem_cons, List.not_mem_nil, or_false] at ha hb hx
        omega

theorem countOccur_pair_unique {m s : Str} (hm : m ≠ [])
    (h2 : countOccur m s = 2) {p1 p2 : Nat}
    (o1 : occursAt m s p1 = true) (o2 : occursAt m s p2 = true)
    (hne : p1 ≠ p2) :
    ∀ p, occursAt m s p = true → p = p1 ∨ p = p2 := by
  intro p hp
  unfold countOccur at h2
  exact mem_pair_of_len2 h2 (mem_occ_filter hm o1) (mem_occ_filter hm o2) hne
    (mem_occ_filter hm hp)

theorem countOccur_two_le {m s : Str} (hm : m ≠ []) {p1 p2 : Nat}
    (o1 : occursAt m s p1 = true) (o2 : occursAt m s p2 = true)
    (hne : p1 ≠ p2) : 2 ≤ countOccur m s := by
  unfold countOccur
  exact two_mem_le_length (mem_occ_filter hm o1) (mem_occ_filter hm o2) hne

theorem splitFirst_of_first_occ {m : Str} (hm : m ≠ []) :
    ∀ (s : Str) (p : Nat), occursAt m s p = true →
    (∀ q, q < p → occursAt m s q = false) →
    splitFirst m s = some (s.take p, s.drop (p + m.length)) := by
  intro s
  induction s with
  | nil =>
    intro p h _
    cases m with
    | nil => exact absurd rfl hm
    | cons a t => simp [occursAt, strStarts] at h
  | cons c rest ih =>
    intro p hp hq
    cases p with
    | zero =>
      unfold occursAt at hp
      rw [List.drop_zero] at hp
      simp only [splitFirst, hp, if_true]
      simp
    | succ q0 =>
      have h0 : strStarts m (c :: rest) = false := by
        have := hq 0 (Nat.succ_pos q0)
        unfold occursAt at this
        rwa [List.drop_zero] at this
      have hrec : occursAt m rest q0 = true := by
        unfold occursAt at hp ⊢
        rwa [List.drop_succ_cons] at hp
      have hqs : ∀ q, q < q0 → occursAt m rest q = false := by
        intro q hq'
        have := hq (q + 1) (by omega)
        unfold occursAt at this ⊢
        rwa [List.drop_succ_cons] at this
      simp only [splitFirst, h0, Bool.false_eq_true, if_false]
      rw [ih q0 hrec hqs]
      have harith : q0 + 1 + m.length = (q0 + m.length) + 1 := by omega
      rw [harith, List.take_succ_cons, List.drop_succ_cons]

theorem splitFirst_decomp {m : Str} :
    ∀ {s b a : Str}, splitFirst m s = some (b, a) → s = b ++ (m ++ a) := by
  intro s
  induction s with
  | nil =>
    intro b a h
    unfold splitFirst at h
    by_cases hme : m = []
    · rw [if_pos hme] at h
      injection h with h'
      injection h' with h1 h2
      subst hme; subst h1; subst h2; rfl
    · rw [if_neg hme] at h
      exact absurd h (by simp)
  | cons c rest ih =>
    intro b a h
    by_cases hs : strStarts m (c :: rest) = true
    · simp only [splitFirst, hs, if_true] at h
      injection h with h'
      injection h' with h1 h2
      obtain ⟨t, ht⟩ := (strStarts_exists_append m (c :: rest)).mp hs
      subst h1
      rw [ht, List.drop_left] at h2
      subst h2
      simpa using ht
    · simp only [splitFirst, hs, Bool.false_eq_true, if_false] at h
      cases hsp : splitFirst m rest with
      | none => rw [hsp] at h; exact absurd h (by simp)
      | some pr =>
        obtain ⟨b', a'⟩ := pr
        rw [hsp] at h
        injection h with h'
        injection h' with h1 h2
        subst h1; subst h2
        have := ih hsp
        simp [this]

theorem extractBetween_decomp {m s mid : Str}
    (h : extractBetween m s = some mid) :
    ∃ b a, s = b ++ (m ++ (mid ++ (m ++ a))) := by
  unfold extractBetween at h
  split at h
  · exact absurd h (by simp)
  · rename_i fst rest h1
    split at h
    · exact absurd h (by simp)
    · rename_i mid' snd h2
      injection h with h'
      subst h'
      have d1 := splitFirst_decomp h1
      have d2 := splitFirst_decomp h2
      exact ⟨fst, snd, by rw [d1, d2]⟩

theorem occursAt_cat2 (m b mid a : Str) :
    occursAt m (b ++ (m ++ (mid ++ (m ++ a)))) (b.length + m.length + mid.length) = true := by
  have h := occursAt_cat m (b ++ (m ++ mid)) a
  have e1 : (b ++ (m ++ mid)).length = b.length + m.length + mid.length := by
    simp [List.length_append]; omega
  have e2 : b ++ (m ++ mid) ++ (m ++ a) = b ++ (m ++ (mid ++ (m ++ a))) := by
    simp [List.append_assoc]
  rw [e1, e2] at h
  exact h

theorem extractBetween_count2 {m : Str} (hm : m ≠ []) (pre mid post : Str)
    (h2 : countOccur m (pre ++ (m ++ (mid ++ (m ++ post)))) = 2) :
    extractBetween m (pre ++ (m ++ (mid ++ (m ++ post)))) = some mid := by
  have hmlen : 0 < m.length := List.length_pos.mpr hm
  have o1 : occursAt m (pre ++ (m ++ (mid ++ (m ++ post)))) pre.length = true :=
    occursAt_cat m pre (mid ++ (m ++ post))
  have o2 : occursAt m (pre ++ (m ++ (mid ++ (m ++ post))))
      (pre.length + m.length + mid.length) = true := occursAt_cat2 m pre mid post
  have hne : pre.length ≠ pre.length + m.length + mid.length := by omega
  have F := countOccur_pair_unique hm h2 o1 o2 hne
  have hfq : ∀ q, q < pre.length →
      occursAt m (pre ++ (m ++ (mid ++ (m ++ post)))) q = false := by
    intro q hq
    by_contra hq'
    have hq'' : occursAt m (pre ++ (m ++ (mid ++ (m ++ post)))) q = true := by
      revert hq'; cases occursAt m (pre ++ (m ++ (mid ++ (m ++ post)))) q <;> simp
    rcases F q hq'' with h | h <;> omega
  have hsp1 := splitFirst_of_first_occ hm _ pre.length o1 hfq
  have htake : (pre ++ (m ++ (mid ++ (m ++ post)))).take pre.length = pre :=
    List.take_left pre _
  have hdrop : (pre ++ (m ++ (mid ++ (m ++ post)))).drop (pre.length + m.length) =
      mid ++ (m ++ post) := by
    have e : pre ++ (m ++ (mid ++ (m ++ post))) = (pre ++ m) ++ (mid ++ (m ++ post)) := by
      simp [List.append_assoc]
    have e2 : (pre ++ m).length = pre.length + m.length := by simp [List.length_append]
    rw [e, ← e2, List.drop_left]
  rw [htake, hdrop] at hsp1
  have o1' : occursAt m (mid ++ (m ++ post)) mid.length = true :=
    occursAt_cat m mid post
  have hfq2 : ∀ q, q < mid.length → occursAt m (mid ++ (m ++ post)) q = false := by
    intro q hq
    have shift := occursAt_drop_shift m (pre ++ (m ++ (mid ++ (m ++ post))))
      (pre.length + m.length) q
    rw [hdrop] at shift
    rw [shift]
    by_contra hq'
    have hq'' : occursAt m (pre ++ (m ++ (mid ++ (m ++ post))))
        (pre.length + m.length + q) = true := by
      revert hq'
      cases occursAt m (pre ++ (m ++ (mid ++ (m ++ post)))) (pre.length + m.length + q) <;> simp
    rcases F _ hq'' with h | h <;> omega
  have hsp2 := splitFirst_of_first_occ hm _ mid.length o1' hfq2
  have htake2 : (mid ++ (m ++ post)).take mid.length = mid := List.take_left mid _
  rw [htake2] at hsp2
  simp only [extractBetween, hsp1, hsp2]

/-! ### Properties of the iteration loop -/

theorem iterFrom_builds_le (env : IterEnv) (path : Str) (N : Int) (repo : Str) :
    ∀ (rem i : Nat) (cur : Str),
    (iterFrom env path N repo i rem cur).1.builds ≤ rem := by
  intro rem
  induction rem with
  | zero => intro i cur; simp [iterFrom]
  | succ r ih =>
    intro i cur
    simp only [iterFrom]
    split
    · simp
    · split
      · simp
      · split
        · simp
        · exact Nat.succ_le_succ (ih _ _)

theorem iterFrom_builds_pos (env : IterEnv) (path : Str) (N : Int) (repo : Str)
    (rem i : Nat) (cur : Str) (h : 1 ≤ rem) :
    1 ≤ (iterFrom env path N repo i rem cur).1.builds := by
  cases rem with
  | zero => omega
  | succ r =>
    simp only [iterFrom]
    split
    · simp
    · split
      · simp
      · split
        · simp
        · exact Nat.succ_le_succ (Nat.zero_le _)

theorem iterFrom_succ_at (env : IterEnv) (path : Str) (N : Int) (repo : Str) :
    ∀ (m i rem : Nat) (cur : Str), m < rem →
    (∀ j, j < m → (buildDockerfile (env.build (i + j))).1 = false) →
    (∀ j, j < m → ∀ p, chatOk (env.chat (i + j) p) = true) →
    (∀ j, j < m → env.write (i + j) = Except.ok ()) →
    (buildDockerfile (env.build (i + m))).1 = true →
    iterFrom env path N repo i rem cur = (⟨m + 1, m, m⟩, none) := by
  intro m
  induction m with
  | zero =>
    intro i rem cur hrem hfail hchat hwrite hsucc
    cases rem with
    | zero => omega
    | succ r =>
      rw [Nat.add_zero] at hsucc
      simp only [iterFrom, hsucc, if_true]
  | succ m' ih =>
    intro i rem cur hrem hfail hchat hwrite hsucc
    cases rem with
    | zero => omega
    | succ r =>
      have hf0 : (buildDockerfile (env.build i)).1 = false := by
        have h := hfail 0 (Nat.succ_pos m')
        rwa [Nat.add_zero] at h
      have hc0 : ∀ p, chatOk (env.chat i p) = true := by
        have h := hchat 0 (Nat.succ_pos m')
        rwa [Nat.add_zero] at h
      have hw0 : env.write i = Except.ok () := by
        have h := hwrite 0 (Nat.succ_pos m')
        rwa [Nat.add_zero] at h
      obtain ⟨c, hcc⟩ : ∃ c, env.chat i (promptForInput
          ⟨cur, (buildDockerfile (env.build i)).2, repo, path⟩) = ChatOutcome.content c := by
        have h := hc0 (promptForInput ⟨cur, (buildDockerfile (env.build i)).2, repo, path⟩)
        cases hcase : env.chat i (promptForInput
            ⟨cur, (buildDockerfile (env.build i)).2, repo, path⟩) with
        | err e => rw [hcase] at h; exact absurd h (by simp [chatOk])
        | noContent => rw [hcase] at h; exact absurd h (by simp [chatOk])
        | content c => exact ⟨c, rfl⟩
      have hana : analyzeDockerfile (env.chat i)
          ⟨cur, (buildDockerfile (env.build i)).2, repo, path⟩ =
          Except.ok ⟨extractFixedDockerfile c, c⟩ := by
        unfold analyzeDockerfile
        rw [hcc]
      have hrec := ih (i + 1) r (extractFixedDockerfile c) (by omega)
        (fun j hj => by
          have h := hfail (j + 1) (by omega)
          rwa [show i + (j + 1) = i + 1 + j by omega] at h)
        (fun j hj => by
          have h := hchat (j + 1) (by omega)
          rwa [show i + (j + 1) = i + 1 + j by omega] at h)
        (fun j hj => by
          have h := hwrite (j + 1) (by omega)
          rwa [show i + (j + 1) = i + 1 + j by omega] at h)
        (by
          have h := hsucc
          rwa [show i + (m' + 1) = i + 1 + m' by omega] at h)
      simp only [iterFrom, hf0, Bool.false_eq_true, if_false, hana, hw0, hrec]

theorem iterFrom_all_fail (env : IterEnv) (path : Str) (N : Int) (repo : Str) :
    ∀ (rem i : Nat) (cur : Str),
    (∀ j, j < rem → (buildDockerfile (env.build (i + j))).1 = false) →
    (∀ j, j < rem → ∀ p, chatOk (env.chat (i + j) p) = true) →
    (∀ j, j < rem → env.write (i + j) = Except.ok ()) →
    iterFrom env path N repo i rem cur = (⟨rem, rem, rem⟩, some (exhaustedMsg N)) := by
  intro rem
  induction rem with
  | zero => intro i cur _ _ _; simp [iterFrom]
  | succ r ih =>
    intro i cur hfail hchat hwrite
    have hf0 : (buildDockerfile (env.build i)).1 = false := by
      have h := hfail 0 (Nat.succ_pos r)
      rwa [Nat.add_zero] at h
    have hc0 : ∀ p, chatOk (env.chat i p) = true := by
      have h := hchat 0 (Nat.succ_pos r)
      rwa [Nat.add_zero] at h
    have hw0 : env.write i = Except.ok () := by
      have h := hwrite 0 (Nat.succ_pos r)
      rwa [Nat.add_zero] at h
    obtain ⟨c, hcc⟩ : ∃ c, env.chat i (promptForInput
        ⟨cur, (buildDockerfile (env.build i)).2, repo, path⟩) = ChatOutcome.content c := by
      have h := hc0 (promptForInput ⟨cur, (buildDockerfile (env.build i)).2, repo, path⟩)
      cases hcase : env.chat i (promptForInput
          ⟨cur, (buildDockerfile (env.build i)).2, repo, path⟩) with
      | err e => rw [hcase] at h; exact absurd h (by simp [chatOk])
      | noContent => rw [hcase] at h; exact absurd h (by simp [chatOk])
      | content c => exact ⟨c, rfl⟩
    have hana : analyzeDockerfile (env.chat i)
        ⟨cur, (buildDockerfile (env.build i)).2, repo, path⟩ =
        Except.ok ⟨extractFixedDockerfile c, c⟩ := by
      unfold analyzeDockerfile
      rw [hcc]
    have hrec := ih (i + 1) (extractFixedDockerfile c)
      (fun j hj => by
        have h := hfail (j + 1) (by omega)
        rwa [show i + (j + 1) = i + 1 + j by omega] at h)
      (fun j hj => by
        have h := hchat (j + 1) (by omega)
        rwa [show i + (j + 1) = i + 1 + j by omega] at h)
      (fun j hj => by
        have h := hwrite (j + 1) (by omega)
        rwa [show i + (j + 1) = i + 1 + j by omega] at h)
    simp only [iterFrom, hf0, Bool.false_eq_true, if_false, hana, hw0, hrec]

/-! ### Claim theorems -/

/-- C3: for every model response text containing exactly one pair of
`<<<DOCKERFILE>>>` sentinel markers (the marker occurs exactly twice),
the extraction step of `analyzeDockerfile` sets `FixedDockerfile` to
exactly the whitespace-trimmed substring between the first marker pair,
regardless of the text before the opening marker or after the closing
marker. -/
theorem c3_sentinel_extraction (chat : Str → ChatOutcome) (input : DockerfileInput)
    (pre mid post content : Str)
    (hc : content = pre ++ marker ++ mid ++ marker ++ post)
    (h2 : countOccur marker content = 2)
    (hresp : chat (promptForInput input) = ChatOutcome.content content) :
    analyzeDockerfile chat input = Except.ok ⟨trimSpace mid, content⟩ := by
  have hc' : content = pre ++ (marker ++ (mid ++ (marker ++ post))) := by
    rw [hc]; simp [List.append_assoc]
  have hm : marker ≠ [] := by decide
  rw [hc'] at h2
  have hext : extractFixedDockerfile content = trimSpace mid := by
    unfold extractFixedDockerfile
    rw [hc', extractBetween_count2 hm pre mid post h2]
  simp [analyzeDockerfile, hresp, hext]

/-- C4: on a response with no sentinel pair whose first `FROM` line is not
its last line, the `FROM` fallback of `analyzeDockerfile` keeps only the
first `FROM` line — the lazy multi-line pattern `^FROM[\s\S]*?$` stops at
the first end of line — instead of the text from that line through the end
of the response, which is what the specification (and the source's own
comment) require. -/
theorem c4_from_fallback_single_line :
    analyzeDockerfile (fun _ => ChatOutcome.content (("FROM alpine\nRUN echo hi").data))
        ⟨[], [], [], []⟩ =
      Except.ok ⟨("FROM alpine").data, ("FROM alpine\nRUN echo hi").data⟩ ∧
    ("FROM alpine").data ≠ ("FROM alpine\nRUN echo hi").data := by
  constructor
  · rfl
  · decide

/-- C7: for every model response text with no `<<<DOCKERFILE>>>` sentinel
pair (the marker occurs at most once) and no line beginning with `FROM`,
the extraction step of `analyzeDockerfile` is the identity:
`FixedDockerfile` is the full response text unchanged, with no trimming. -/
theorem c7_identity_fallback (chat : Str → ChatOutcome) (input : DockerfileInput)
    (content : Str)
    (hresp : chat (promptForInput input) = ChatOutcome.content content)
    (hcount : countOccur marker content ≤ 1)
    (hfrom : ∀ l ∈ splitLines content, strStarts (("FROM").data) l = false) :
    analyzeDockerfile chat input = Except.ok ⟨content, content⟩ := by
  have hm : marker ≠ [] := by decide
  have hext : extractBetween marker content = none := by
    cases hx : extractBetween marker content with
    | none => rfl
    | some mid =>
      obtain ⟨b, a, hdec⟩ := extractBetween_decomp hx
      have o1 : occursAt marker content b.length = true := by
        rw [hdec]; exact occursAt_cat marker b (mid ++ (marker ++ a))
      have o2 : occursAt marker content (b.length + marker.length + mid.length) = true := by
        rw [hdec]; exact occursAt_cat2 marker b mid a
      have hmlen : 0 < marker.length := by decide
      have h2 : 2 ≤ countOccur marker content :=
        countOccur_two_le hm o1 o2 (by omega)
      omega
  have hline : firstFromLine content = none := by
    unfold firstFromLine
    rw [List.find?_eq_none]
    intro l hl
    simp [hfrom l hl]
  have hfix : extractFixedDockerfile content = content := by
    simp [extractFixedDockerfile, hext, hline]
  simp [analyzeDockerfile, hresp, hfix]

/-- C6 counterexample: `buildDockerfile` reports a missing build tool
through exactly the same `(success, output)` channel as an ordinary
failing build — `(false, message)` in both cases — rather than through a
distinct error value. -/
theorem c6_same_channel_counterexample :
    buildDockerfile ⟨false, true, ("irrelevant output").data⟩ = (false, dockerNotFoundMsg) ∧
    buildDockerfile ⟨true, true, ("compile error").data⟩ = (false, ("compile error").data) := by
  constructor
  · rfl
  · rfl

/-- C6 (amended): when the build tool is not resolvable on the search
path, `buildDockerfile` fails fast — it returns before invoking the build
subprocess, so the result does not depend on the subprocess fields — but
it reports this through the same `(success, output)` pair as a failing
build: success `false` with a fixed descriptive message containing
`not found in PATH`. -/
theorem c6_tool_missing_fails_fast (env : BuildEnv) (h : env.dockerOnPath = false) :
    buildDockerfile env = (false, dockerNotFoundMsg) ∧
    containsSub (("not found in PATH").data) dockerNotFoundMsg = true := by
  constructor
  · unfold buildDockerfile
    rw [h]
    simp
  · decide

/-- C8 counterexample: with both environment variables set and a first
positional argument (`status`) that is not the recognized subcommand, the
program selects the hello smoke test — which performs a network call —
and does not print the usage text. -/
theorem c8_unrecognized_arg_counterexample :
    mainDispatch (("k").data) (("e").data) true [("status").data] = MainAction.helloTest ∧
    MainAction.helloTest ≠ MainAction.usage ∧
    performsNetworkCall MainAction.helloTest = true ∧
    actionPrints MainAction.helloTest = [] := by
  refine ⟨by decide, by decide, rfl, rfl⟩

/-- C8 (amended): when the first positional argument is present but is not
`iterate-dockerfile-build` (and configuration and client construction
succeed), the program runs the one-shot hello smoke test, which performs
a network call; the usage text is printed only when no positional
argument is given at all. -/
theorem c8_unrecognized_runs_hello (apiKey endpoint a : Str) (rest : List Str)
    (hk : apiKey ≠ []) (he : endpoint ≠ []) (ha : a ≠ subcommandName) :
    mainDispatch apiKey endpoint true (a :: rest) = MainAction.helloTest ∧
    performsNetworkCall MainAction.helloTest = true ∧
    mainDispatch apiKey endpoint true [] = MainAction.usage := by
  refine ⟨?_, rfl, ?_⟩
  · simp [mainDispatch, hk, he, ha]
  · simp [mainDispatch, hk, he]

/-- C9: if the credential environment variable or the endpoint
environment variable is empty, `main` stops with the configuration error:
it prints the message naming both `AZURE_OPENAI_KEY` and
`AZURE_OPENAI_ENDPOINT`, exits with code 1, and does so before
constructing the client and before any build or network call. -/
theorem c9_missing_env_exits_one (apiKey endpoint : Str) (clientOk : Bool)
    (args : List Str) (h : apiKey = [] ∨ endpoint = []) :
    mainDispatch apiKey endpoint clientOk args = MainAction.configError ∧
    actionPrints MainAction.configError = [configErrorMessage] ∧
    containsSub (("AZURE_OPENAI_KEY").data) configErrorMessage = true ∧
    containsSub (("AZURE_OPENAI_ENDPOINT").data) configErrorMessage = true ∧
    actionExitCode MainAction.configError = some 1 ∧
    constructsClient MainAction.configError = false ∧
    performsNetworkCall MainAction.configError = false ∧
    performsBuildCall MainAction.configError = false := by
  refine ⟨?_, rfl, by decide, by decide, rfl, rfl, rfl, rfl⟩
  unfold mainDispatch
  rw [if_pos h]

/-- C1: for every `maxIterations` `N ≥ 1`, when both the Dockerfile and
the structure file are read successfully, `iterateDockerfileBuild`
invokes `buildDockerfile` at least once and at most `N` times before
returning, whatever the per-iteration outcomes are. -/
theorem c1_build_attempts_bounded (env : IterEnv)
    (dockerfilePath fileStructurePath : Str) (N : Int) (hN : 1 ≤ N)
    (d s : Str) (hd : env.readDockerfile = Except.ok d)
    (hs : env.readStructure = Except.ok s) :
    1 ≤ (iterateDockerfileBuild env dockerfilePath fileStructurePath N).1.builds ∧
    ((iterateDockerfileBuild env dockerfilePath fileStructurePath N).1.builds : Int) ≤ N := by
  have hred : iterateDockerfileBuild env dockerfilePath fileStructurePath N =
      iterFrom env dockerfilePath N s 0 N.toNat d := by
    unfold iterateDockerfileBuild
    rw [hd, hs]
  rw [hred]
  constructor
  · exact iterFrom_builds_pos env dockerfilePath N s N.toNat 0 d (by omega)
  · have h := iterFrom_builds_le env dockerfilePath N s N.toNat 0 d
    omega

/-- C2: if the builds of iterations `0 ≤ j < k` fail while their analysis
calls and file writes succeed, and `buildDockerfile` reports success at
iteration `k < N`, then `iterateDockerfileBuild` returns `nil`
immediately: exactly `k + 1` build calls (no iteration `k + 1`), exactly
`k` analysis calls (none at iteration `k`), and exactly `k` writes of the
Dockerfile path (none at iteration `k`). -/
theorem c2_success_terminates_immediately (env : IterEnv)
    (dockerfilePath fileStructurePath : Str) (N : Int) (k : Nat)
    (d s : Str) (hd : env.readDockerfile = Except.ok d)
    (hs : env.readStructure = Except.ok s) (hk : (k : Int) < N)
    (hfail : ∀ j, j < k → (buildDockerfile (env.build j)).1 = false)
    (hchat : ∀ j, j < k → ∀ p, chatOk (env.chat j p) = true)
    (hwrite : ∀ j, j < k → env.write j = Except.ok ())
    (hsucc : (buildDockerfile (env.build k)).1 = true) :
    iterateDockerfileBuild env dockerfilePath fileStructurePath N =
      (⟨k + 1, k, k⟩, none) := by
  have hred : iterateDockerfileBuild env dockerfilePath fileStructurePath N =
      iterFrom env dockerfilePath N s 0 N.toNat d := by
    unfold iterateDockerfileBuild
    rw [hd, hs]
  rw [hred]
  apply iterFrom_succ_at env dockerfilePath N s k 0 N.toNat d (by omega)
  · intro j hj
    have h := hfail j hj
    rwa [Nat.zero_add]
  · intro j hj
    have h := hchat j hj
    rwa [Nat.zero_add]
  · intro j hj
    have h := hwrite j hj
    rwa [Nat.zero_add]
  · rwa [Nat.zero_add]

/-- C5: if the builds of all `N` iterations fail while every analysis
call and every file write succeeds, `iterateDockerfileBuild` returns the
error whose message names exactly the iteration count `N`:
`failed to fix Dockerfile after N iterations`. -/
theorem c5_exhausted_error_names_n (env : IterEnv)
    (dockerfilePath fileStructurePath : Str) (N : Int)
    (d s : Str) (hd : env.readDockerfile = Except.ok d)
    (hs : env.readStructure = Except.ok s)
    (hfail : ∀ j : Nat, (j : Int) < N → (buildDockerfile (env.build j)).1 = false)
    (hchat : ∀ j : Nat, (j : Int) < N → ∀ p, chatOk (env.chat j p) = true)
    (hwrite : ∀ j : Nat, (j : Int) < N → env.write j = Except.ok ()) :
    (iterateDockerfileBuild env dockerfilePath fileStructurePath N).2 =
      some ((("failed to fix Dockerfile after ") ++ toString N ++ (" iterations")).data) := by
  have hred : iterateDockerfileBuild env dockerfilePath fileStructurePath N =
      iterFrom env dockerfilePath N s 0 N.toNat d := by
    unfold iterateDockerfileBuild
    rw [hd, hs]
  rw [hred]
  rw [iterFrom_all_fail env dockerfilePath N s N.toNat 0 d
    (fun j hj => by
      have h := hfail j (by omega)
      rwa [Nat.zero_add])
    (fun j hj => by
      have h := hchat j (by omega)
      rwa [Nat.zero_add])
    (fun j hj => by
      have h := hwrite j (by omega)
      rwa [Nat.zero_add])]
  rfl

/-- C10: for every `maxIterations` `N ≤ 0`, when both files are read
successfully, `iterateDockerfileBuild` performs zero build attempts,
never invokes `analyzeDockerfile`, never writes the Dockerfile path, and
returns the exhausted error naming `N`: the `N ≥ 1` lower bound is a
genuine precondition, not enforced by the code. -/
theorem c10_nonpositive_iterations_zero_builds (env : IterEnv)
    (dockerfilePath fileStructurePath : Str) (N : Int) (hN : N ≤ 0)
    (d s : Str) (hd : env.readDockerfile = Except.ok d)
    (hs : env.readStructure = Except.ok s) :
    iterateDockerfileBuild env dockerfilePath fileStructurePath N =
      (⟨0, 0, 0⟩,
        some ((("failed to fix Dockerfile after ") ++ toString N ++ (" iterations")).data)) := by
  have hred : iterateDockerfileBuild env dockerfilePath fileStructurePath N =
      iterFrom env dockerfilePath N s 0 N.toNat d := by
    unfold iterateDockerfileBuild
    rw [hd, hs]
  have h0 : N.toNat = 0 := by omega
  rw [hred, h0]
  simp [iterFrom, exhaustedMsg]

/-! ### Witnesses -/

/-- Witness for C1 at `N = 1` in `envC1`. -/
theorem c1_build_attempts_bounded_witness :
    (1 : Int) ≤ 1 ∧
    envC1.readDockerfile = Except.ok (("FROM x").data) ∧
    envC1.readStructure = Except.ok (("tree").data) ∧
    (1 ≤ (iterateDockerfileBuild envC1 [] [] 1).1.builds ∧
      ((iterateDockerfileBuild envC1 [] [] 1).1.builds : Int) ≤ 1) :=
  ⟨le_refl 1, rfl, rfl,
    c1_build_attempts_bounded envC1 [] [] 1 (le_refl 1) _ _ rfl rfl⟩

/-- Witness for C2 at `k = 1`, `N = 2` in `envC2`. -/
theorem c2_success_terminates_immediately_witness :
    ((1 : Nat) : Int) < 2 ∧
    (∀ j, j < 1 → (buildDockerfile (envC2.build j)).1 = false) ∧
    (∀ j, j < 1 → ∀ p, chatOk (envC2.chat j p) = true) ∧
    (∀ j, j < 1 → envC2.write j = Except.ok ()) ∧
    (buildDockerfile (envC2.build 1)).1 = true ∧
    iterateDockerfileBuild envC2 [] [] 2 = (⟨2, 1, 1⟩, none) := by
  have hf : ∀ j, j < 1 → (buildDockerfile (envC2.build j)).1 = false := by
    intro j hj
    have hj0 : j = 0 := by omega
    subst hj0
    rfl
  have hc : ∀ j, j < 1 → ∀ p, chatOk (envC2.chat j p) = true := fun _ _ _ => rfl
  have hw : ∀ j, j < 1 → envC2.write j = Except.ok () := fun _ _ => rfl
  exact ⟨by decide, hf, hc, hw, rfl,
    c2_success_terminates_immediately envC2 [] [] 2 1 _ _ rfl rfl (by decide) hf hc hw rfl⟩

/-- Witness for C3: a response with explanatory text around exactly one
sentinel-delimited block. -/
theorem c3_sentinel_extraction_witness :
    countOccur marker
      ((("resp: ").data ++ marker ++ ("\nFROM a\nRUN b\n").data ++ marker ++ (" tail").data)) = 2 ∧
    analyzeDockerfile
      (fun _ => ChatOutcome.content
        ((("resp: ").data ++ marker ++ ("\nFROM a\nRUN b\n").data ++ marker ++ (" tail").data)))
      ⟨[], [], [], []⟩ =
      Except.ok ⟨trimSpace (("\nFROM a\nRUN b\n").data),
        (("resp: ").data ++ marker ++ ("\nFROM a\nRUN b\n").data ++ marker ++ (" tail").data)⟩ :=
  ⟨by decide,
    c3_sentinel_extraction _ ⟨[], [], [], []⟩ (("resp: ").data) (("\nFROM a\nRUN b\n").data)
      ((" tail").data) _ rfl (by decide) rfl⟩

/-- Witness for C5 at `N = 2` in `envC5`. -/
theorem c5_exhausted_error_names_n_witness :
    envC5.readDockerfile = Except.ok (("FROM bad").data) ∧
    (∀ j : Nat, (j : Int) < 2 → (buildDockerfile (envC5.build j)).1 = false) ∧
    (∀ j : Nat, (j : Int) < 2 → ∀ p, chatOk (envC5.chat j p) = true) ∧
    (∀ j : Nat, (j : Int) < 2 → envC5.write j = Except.ok ()) ∧
    (iterateDockerfileBuild envC5 [] [] 2).2 =
      some ((("failed to fix Dockerfile after ") ++ toString (2 : Int) ++ (" iterations")).data) :=
  ⟨rfl, fun _ _ => rfl, fun _ _ _ => rfl, fun _ _ => rfl,
    c5_exhausted_error_names_n envC5 [] [] 2 _ _ rfl rfl
      (fun _ _ => rfl) (fun _ _ _ => rfl) (fun _ _ => rfl)⟩

/-- Witness for C6 with the build tool absent. -/
theorem c6_tool_missing_fails_fast_witness :
    (⟨false, false, []⟩ : BuildEnv).dockerOnPath = false ∧
    (buildDockerfile ⟨false, false, []⟩ = (false, dockerNotFoundMsg) ∧
      containsSub (("not found in PATH").data) dockerNotFoundMsg = true) :=
  ⟨rfl, c6_tool_missing_fails_fast ⟨false, false, []⟩ rfl⟩

/-- Witness for C7: a response with no sentinel pair and no `FROM` line. -/
theorem c7_identity_fallback_witness :
    countOccur marker (("hello world").data) ≤ 1 ∧
    (∀ l ∈ splitLines (("hello world").data), strStarts (("FROM").data) l = false) ∧
    analyzeDockerfile (fun _ => ChatOutcome.content (("hello world").data)) ⟨[], [], [], []⟩ =
      Except.ok ⟨("hello world").data, ("hello world").data⟩ :=
  ⟨by decide, by decide,
    c7_identity_fallback _ ⟨[], [], [], []⟩ _ rfl (by decide) (by decide)⟩

/-- Witness for C8 with the unrecognized argument `status`. -/
theorem c8_unrecognized_runs_hello_witness :
    (("k").data : Str) ≠ [] ∧ (("e").data : Str) ≠ [] ∧
    (("status").data : Str) ≠ subcommandName ∧
    (mainDispatch (("k").data) (("e").data) true [("status").data] = MainAction.helloTest ∧
      performsNetworkCall MainAction.helloTest = true ∧
      mainDispatch (("k").data) (("e").data) true [] = MainAction.usage) :=
  ⟨by decide, by decide, by decide,
    c8_unrecognized_runs_hello (("k").data) (("e").data) (("status").data) []
      (by decide) (by decide) (by decide)⟩

/-- Witness for C9 with an empty credential variable. -/
theorem c9_missing_env_exits_one_witness :
    (([] : Str) = [] ∨ (("e").data : Str) = []) ∧
    (mainDispatch [] (("e").data) true [] = MainAction.configError ∧
      actionPrints MainAction.configError = [configErrorMessage] ∧
      containsSub (("AZURE_OPENAI_KEY").data) configErrorMessage = true ∧
      containsSub (("AZURE_OPENAI_ENDPOINT").data) configErrorMessage = true ∧
      actionExitCode MainAction.configError = some 1 ∧
      constructsClient MainAction.configError = false ∧
      performsNetworkCall MainAction.configError = false ∧
      performsBuildCall MainAction.configError = false) :=
  ⟨Or.inl rfl, c9_missing_env_exits_one [] (("e").data) true [] (Or.inl rfl)⟩

/-- Witness for C10 at `N = 0` in `envC10`. -/
theorem c10_nonpositive_iterations_zero_builds_witness :
    (0 : Int) ≤ 0 ∧
    envC10.readDockerfile = Except.ok (("FROM x").data) ∧
    iterateDockerfileBuild envC10 [] [] 0 =
      (⟨0, 0, 0⟩,
        some ((("failed to fix Dockerfile after ") ++ toString (0 : Int) ++ (" iterations")).data)) :=
  ⟨le_refl 0, rfl,
    c10_nonpositive_iterations_zero_builds envC10 [] [] 0 (le_refl 0) _ _ rfl rfl⟩
